import Mathlib

/-!
Verification of the ai-customer-service repository against its
natural-language specification.

The repository is a three-service system: a Python Core owning the RAG
pipeline, a .NET gateway (src/backend/api) and a Next.js admin frontend.
The gateway and frontend sources are embedded from the code; the Core
pipeline sources are not part of the checked tree, so the pipeline is
modelled from the specification (each such definition says so in its
doc comment).
-/

/-- Embeds QueryRequestDto from SharedModels.cs: JSON fields
knowledge_base_id and question. -/
structure QueryRequestDto where
  knowledgeBaseId : String
  question : String
  deriving DecidableEq, Repr

/-- Embeds CitationDto from SharedModels.cs: source_document, page
(nullable), chunk_id, relevance_score. The C# double score is modelled
as a rational. -/
structure CitationDto where
  sourceDocument : String
  page : Option Int
  chunkId : String
  relevanceScore : Rat
  deriving DecidableEq, Repr

/-- Embeds the query response envelope (QueryResponseDto in
SharedModels.cs / the response contract of the spec): status, answer
(nullable), citations, interaction_id, error (nullable). -/
structure QueryResult where
  status : String
  answer : Option String
  citations : List CitationDto
  interactionId : String
  error : Option String
  deriving DecidableEq, Repr

/-- Embeds HealthResponseDto from HealthEndpoint.cs. -/
structure HealthResponseDto where
  status : String
  coreStatus : String
  deriving DecidableEq, Repr

/-- Embeds QueryValidator from the gateway (FluentValidation rules):
KnowledgeBaseId NotEmpty; Question NotEmpty and MaximumLength 2000. -/
def QueryValidator.isValid (r : QueryRequestDto) : Bool :=
  decide (r.knowledgeBaseId ≠ "") &&
    (decide (r.question ≠ "") && decide (r.question.length ≤ 2000))

/-- Outcome of one gateway request: either rejected by validation with
HTTP 400, or the response obtained from the Core client. -/
inductive GatewayOutcome (ρ : Type) where
  | validationError : GatewayOutcome ρ
  | ok (resp : ρ) : GatewayOutcome ρ
  deriving DecidableEq, Repr

/-- Trace of one gateway request: the outcome sent to the caller and
the request forwarded to the Core client, if any. -/
structure GatewayTrace (ρ : Type) where
  outcome : GatewayOutcome ρ
  forwarded : Option QueryRequestDto
  deriving DecidableEq, Repr

/-- Embeds the POST /api/v1/query path of the gateway: FastEndpoints
runs QueryValidator before QueryEndpoint.HandleAsync; the handler calls
_coreApi.QueryAsync(req, ct) with the request object it received and
sends the result with SendAsync unchanged. The Core client is the
parameter core; the trace records what was forwarded to it. -/
def processQuery {ρ : Type} (core : QueryRequestDto → ρ)
    (req : QueryRequestDto) : GatewayTrace ρ :=
  if QueryValidator.isValid req then
    { outcome := GatewayOutcome.ok (core req), forwarded := some req }
  else
    { outcome := GatewayOutcome.validationError, forwarded := none }

/-- Gateway behaviour as the spec words it (for the refinement claim):
consuming layers must preserve exact semantics, so a valid request is
forwarded unchanged and the Core envelope is returned unchanged. -/
def specGatewayForward {ρ : Type} (core : QueryRequestDto → ρ)
    (req : QueryRequestDto) : GatewayTrace ρ :=
  { outcome := GatewayOutcome.ok (core req), forwarded := some req }

/-- Result of running the inner request pipeline under the error
handling middleware: completion with a response, an
HttpRequestException (Core communication failure), or any other
unhandled exception, each carrying its internal message. -/
inductive RequestOutcome (ρ : Type) where
  | completed (resp : ρ) : RequestOutcome ρ
  | httpRequestError (msg : String) : RequestOutcome ρ
  | unhandledError (msg : String) : RequestOutcome ρ
  deriving DecidableEq, Repr

/-- JSON body written by the middleware on an exception. -/
structure ErrorBody where
  status : String
  error : String
  deriving DecidableEq, Repr

/-- What the caller of the gateway sees: the inner response passed
through, or an error JSON with an HTTP status code. -/
inductive MiddlewareResponse (ρ : Type) where
  | passthrough (resp : ρ) : MiddlewareResponse ρ
  | errorJson (httpStatus : Nat) (body : ErrorBody) : MiddlewareResponse ρ
  deriving DecidableEq, Repr

/-- Embeds ErrorHandlingMiddleware.InvokeAsync: HttpRequestException
maps to 503 with body status error / Core service unavailable; any
other exception maps to 500 with body status error / Internal server
error. The exception message is logged, never written to the body. -/
def ErrorHandlingMiddleware.invoke {ρ : Type} :
    RequestOutcome ρ → MiddlewareResponse ρ
  | RequestOutcome.completed r => MiddlewareResponse.passthrough r
  | RequestOutcome.httpRequestError _ =>
      MiddlewareResponse.errorJson 503 ⟨"error", "Core service unavailable"⟩
  | RequestOutcome.unhandledError _ =>
      MiddlewareResponse.errorJson 500 ⟨"error", "Internal server error"⟩

/-- Whether the inner pipeline escaped with an exception. -/
def RequestOutcome.isException {ρ : Type} : RequestOutcome ρ → Bool
  | RequestOutcome.completed _ => false
  | RequestOutcome.httpRequestError _ => true
  | RequestOutcome.unhandledError _ => true

/-- Replaces the internal exception message, leaving the outcome kind
unchanged; used to state that no message detail crosses the response
boundary. -/
def RequestOutcome.replaceMessage {ρ : Type} :
    RequestOutcome ρ → String → RequestOutcome ρ
  | RequestOutcome.completed r, _ => RequestOutcome.completed r
  | RequestOutcome.httpRequestError _, m => RequestOutcome.httpRequestError m
  | RequestOutcome.unhandledError _, m => RequestOutcome.unhandledError m

/-- Outcome of the Core health probe made by HealthEndpoint.HandleAsync:
CheckHealthAsync completes with a Bool inside the 5 second linked
deadline, or the deadline expires (the await throws a cancellation
exception), or the probe throws any other exception. -/
inductive ProbeOutcome where
  | completed (healthy : Bool) : ProbeOutcome
  | timedOut : ProbeOutcome
  | threw (msg : String) : ProbeOutcome
  deriving DecidableEq, Repr

/-- Embeds HealthEndpoint.HandleAsync: coreStatus starts as
unreachable; when the probe completes it becomes healthy or unreachable
from the returned Bool; every exception (timeout included) is caught
and only logged; the endpoint always sends overall status healthy. -/
def HealthEndpoint.handleAsync (p : ProbeOutcome) : HealthResponseDto :=
  let coreStatus : String :=
    match p with
    | ProbeOutcome.completed true => "healthy"
    | ProbeOutcome.completed false => "unreachable"
    | ProbeOutcome.timedOut => "unreachable"
    | ProbeOutcome.threw _ => "unreachable"
  { status := "healthy", coreStatus := coreStatus }

/-- Modelled from the spec: the Chunk value object of the Core domain
(the Core Python sources are not in the checked tree). Fields id,
document_id, content, plus the optional page carried into citations. -/
structure Chunk where
  id : String
  documentId : String
  content : String
  page : Option Int
  deriving DecidableEq, Repr

/-- Modelled from the spec: GroundingDecision of the Core domain:
is_grounded, confidence in the unit interval, reasoning, and the
supporting chunk id set (as a list). -/
structure GroundingDecision where
  isGrounded : Bool
  confidence : Rat
  reasoning : String
  supportingChunkIds : List String
  deriving DecidableEq, Repr

/-- Modelled from the spec: the exact fixed unknown message. -/
def unknownMessage : String :=
  "I don\x27t have that information in the provided knowledge base."

/-- Modelled from the spec: the fixed unknown response envelope:
status unknown, the exact message, empty citations. -/
def unknownResult (iid : String) : QueryResult :=
  { status := "unknown", answer := some unknownMessage, citations := [],
    interactionId := iid, error := none }

/-- Modelled from the spec: the error response envelope produced when
the pipeline fails: status error, error message set, the interaction
id assigned at pipeline entry still present. -/
def errorResult (iid : String) (msg : String) : QueryResult :=
  { status := "error", answer := none, citations := [],
    interactionId := iid, error := some msg }

/-- Modelled from the spec: a citation is always produced from a chunk
used in an answer, carrying its document, page, id and score. -/
def chunkCitation (c : Chunk × Rat) : CitationDto :=
  { sourceDocument := c.1.documentId, page := c.1.page,
    chunkId := c.1.id, relevanceScore := c.2 }

/-- Modelled from the spec: keep the first occurrence per chunk id,
dropping ids already seen (CitationBuilder deduplicates by chunk_id). -/
def dedupById (seen : List String) : List (Chunk × Rat) → List (Chunk × Rat)
  | [] => []
  | c :: rest =>
    if c.1.id ∈ seen then dedupById seen rest
    else c :: dedupById (c.1.id :: seen) rest

/-- Descending comparison on the relevance score of a scored chunk. -/
def scoreGE (a b : Chunk × Rat) : Prop := b.2 ≤ a.2

instance : DecidableRel scoreGE := fun a b =>
  inferInstanceAs (Decidable (b.2 ≤ a.2))

instance : IsTotal (Chunk × Rat) scoreGE :=
  ⟨fun a b => (le_total b.2 a.2).elim Or.inl Or.inr⟩

instance : IsTrans (Chunk × Rat) scoreGE :=
  ⟨fun _ _ _ hab hbc => le_trans hbc hab⟩

/-- Modelled from the spec: CitationBuilder.build(supporting_chunk_ids,
chunks). Only chunks whose id is in supporting_chunk_ids are cited,
each chunk id at most once, ordered by relevance score descending. -/
def CitationBuilder.build (supportingIds : List String)
    (chunks : List (Chunk × Rat)) : List CitationDto :=
  (List.insertionSort scoreGE
    (dedupById [] (chunks.filter (fun c => supportingIds.contains c.1.id)))).map
    chunkCitation

/-- Modelled from the spec: outcome of the Retriever call; failure is
the typed RetrievalError, an empty result is a valid outcome. -/
inductive RetrievalResult where
  | ok (chunks : List (Chunk × Rat)) : RetrievalResult
  | failed : RetrievalResult
  deriving DecidableEq, Repr

/-- Modelled from the spec: outcome of the AnswerGenerator call;
failure is the typed GenerationError. -/
inductive GenerationResult where
  | ok (answer : String) : GenerationResult
  | failed : GenerationResult
  deriving DecidableEq, Repr

/-- Modelled from the spec: the configuration passed into the
orchestrator, holding the grounding confidence threshold. -/
structure PipelineConfig where
  threshold : Rat
  deriving DecidableEq, Repr

/-- Modelled from the spec: the behaviour of the collaborators during
one query run: the interaction id assigned at pipeline entry, what the
Retriever returns, what the AnswerGenerator returns, and the
GroundingDecision the evaluator produces. -/
structure PipelineRun where
  interactionId : String
  retrieval : RetrievalResult
  generation : GenerationResult
  decision : GroundingDecision
  deriving DecidableEq, Repr

/-- Modelled from the spec: the grounding gate. A decision counts as
grounded only when is_grounded is true, confidence is at or above the
configured threshold (below threshold fails closed to unknown), and
every supporting chunk id is among the retrieved chunk ids (an id
outside that set is a contract violation forcing not grounded). -/
def effectivelyGrounded (cfg : PipelineConfig) (d : GroundingDecision)
    (chunkIds : List String) : Bool :=
  d.isGrounded && (decide (cfg.threshold ≤ d.confidence) &&
    d.supportingChunkIds.all (fun sid => chunkIds.contains sid))

/-- Modelled from the spec: the QueryOrchestrator state machine for one
query (the Core Python sources are not in the checked tree). Retrieval
failure terminates with status error; zero chunks short-circuit to
unknown without invoking the generator; generation failure terminates
with status error; the grounding gate decides between the answered
envelope with citations attached and the fixed unknown envelope; an
answered envelope with no citations is demoted to unknown (answers
must cite sources). -/
def runQuery (cfg : PipelineConfig) (run : PipelineRun) : QueryResult :=
  match run.retrieval with
  | RetrievalResult.failed => errorResult run.interactionId "retrieval failed"
  | RetrievalResult.ok [] => unknownResult run.interactionId
  | RetrievalResult.ok chunks =>
    match run.generation with
    | GenerationResult.failed =>
        errorResult run.interactionId "generation failed"
    | GenerationResult.ok candidate =>
      if effectivelyGrounded cfg run.decision (chunks.map (fun c => c.1.id))
      then
        if (CitationBuilder.build run.decision.supportingChunkIds
            chunks).isEmpty then unknownResult run.interactionId
        else
          { status := "answered", answer := some candidate,
            citations :=
              CitationBuilder.build run.decision.supportingChunkIds chunks,
            interactionId := run.interactionId, error := none }
      else unknownResult run.interactionId

/-- Helper: every run of the pipeline terminates in exactly one of the
three envelopes: the fixed unknown envelope, an error envelope, or an
answered envelope with citations attached and an answer present. -/
theorem runQuery_cases (cfg : PipelineConfig) (run : PipelineRun) :
    runQuery cfg run = unknownResult run.interactionId ∨
      (∃ msg, runQuery cfg run = errorResult run.interactionId msg) ∨
      ((runQuery cfg run).status = "answered" ∧
        (runQuery cfg run).citations ≠ [] ∧
        (runQuery cfg run).answer ≠ none ∧
        (runQuery cfg run).interactionId = run.interactionId) := by
  unfold runQuery
  split
  · exact Or.inr (Or.inl ⟨"retrieval failed", rfl⟩)
  · exact Or.inl rfl
  · split
    · exact Or.inr (Or.inl ⟨"generation failed", rfl⟩)
    · split
      · split
        · exact Or.inl rfl
        · rename_i hemp
          refine Or.inr (Or.inr ⟨rfl, ?_, ?_, rfl⟩)
          · intro hnil
            exact hemp (by simpa using hnil)
          · intro hnone
            exact Option.noConfusion hnone
      · exact Or.inl rfl

/-- Helper: two distinct string literals used as status values. -/
theorem unknown_ne_answered : ("unknown" : String) ≠ "answered" := by decide

/-- Helper: two distinct string literals used as status values. -/
theorem error_ne_answered : ("error" : String) ≠ "answered" := by decide

/-- Helper: two distinct string literals used as status values. -/
theorem error_ne_unknown : ("error" : String) ≠ "unknown" := by decide

/-- C1: for every query response returned by the POST /api/v1/query
endpoint, if the status field equals "answered" then the citations
list is non-empty and the answer field is non-null. -/
theorem answered_implies_citations_nonempty (cfg : PipelineConfig)
    (run : PipelineRun) (req : QueryRequestDto) (resp : QueryResult)
    (hok : (processQuery (fun _ => runQuery cfg run) req).outcome =
      GatewayOutcome.ok resp)
    (hst : resp.status = "answered") :
    resp.citations ≠ [] ∧ resp.answer ≠ none := by
  have hresp : resp = runQuery cfg run := by
    unfold processQuery at hok
    by_cases hv : QueryValidator.isValid req = true
    · rw [if_pos hv] at hok
      exact (GatewayOutcome.ok.inj hok).symm
    · rw [if_neg hv] at hok
      exact absurd hok (by simp)
  subst hresp
  rcases runQuery_cases cfg run with h | ⟨msg, h⟩ | ⟨_, hc, ha, _⟩
  · rw [h] at hst
    exact absurd hst unknown_ne_answered
  · rw [h] at hst
    exact absurd hst error_ne_answered
  · exact ⟨hc, ha⟩

/-- C2: for every query response returned by the POST /api/v1/query
endpoint, if the status field equals "unknown" then the answer field is
exactly the fixed unknown message and the citations list is empty. -/
theorem unknown_implies_fixed_message (cfg : PipelineConfig)
    (run : PipelineRun) (req : QueryRequestDto) (resp : QueryResult)
    (hok : (processQuery (fun _ => runQuery cfg run) req).outcome =
      GatewayOutcome.ok resp)
    (hst : resp.status = "unknown") :
    resp.answer = some unknownMessage ∧ resp.citations = [] := by
  have hresp : resp = runQuery cfg run := by
    unfold processQuery at hok
    by_cases hv : QueryValidator.isValid req = true
    · rw [if_pos hv] at hok
      exact (GatewayOutcome.ok.inj hok).symm
    · rw [if_neg hv] at hok
      exact absurd hok (by simp)
  subst hresp
  rcases runQuery_cases cfg run with h | ⟨msg, h⟩ | ⟨hans, _, _, _⟩
  · rw [h]
    exact ⟨rfl, rfl⟩
  · rw [h] at hst
    exact absurd hst error_ne_unknown
  · rw [hans] at hst
    exact absurd hst.symm unknown_ne_answered

/-- C3: for every query whose grounding decision has confidence
strictly below the configured threshold, the final response status is
never "answered", even when is_grounded was reported true. -/
theorem low_confidence_never_answered (cfg : PipelineConfig)
    (run : PipelineRun)
    (hlow : run.decision.confidence < cfg.threshold) :
    (runQuery cfg run).status ≠ "answered" := by
  unfold runQuery
  split
  · exact fun h => error_ne_answered h
  · exact fun h => unknown_ne_answered h
  · split
    · exact fun h => error_ne_answered h
    · split
      · rename_i hgr
        have hle : cfg.threshold ≤ run.decision.confidence := by
          have hb := hgr
          simp only [effectivelyGrounded, Bool.and_eq_true,
            decide_eq_true_eq] at hb
          exact hb.2.1
        exact absurd hle (not_le.mpr hlow)
      · exact fun h => unknown_ne_answered h

/-- C7: for every query in which retrieval fails with a
RetrievalError, the response has status "error", still carries the
interaction id assigned at pipeline entry, and its error field is set. -/
theorem retrieval_failure_error_with_interaction_id (cfg : PipelineConfig)
    (run : PipelineRun)
    (hfail : run.retrieval = RetrievalResult.failed) :
    (runQuery cfg run).status = "error" ∧
      (runQuery cfg run).interactionId = run.interactionId ∧
      (runQuery cfg run).error ≠ none := by
  unfold runQuery
  rw [hfail]
  exact ⟨rfl, rfl, fun h => Option.noConfusion h⟩

/-- Concrete chunk used by the witnesses (spec scenario 1). -/
def chunkEx : Chunk :=
  { id := "c1", documentId := "manual.pdf",
    content := "Warranty is 2 years", page := some 3 }

/-- Concrete valid request used by the witnesses. -/
def reqEx : QueryRequestDto :=
  { knowledgeBaseId := "kb-001", question := "What is the warranty period?" }

/-- Concrete configuration used by the witnesses; the threshold is an
integer rational so that concrete runs reduce inside the kernel. -/
def cfgEx : PipelineConfig := { threshold := (1 : Rat) }

/-- Concrete run terminating in the answered envelope. -/
def runAnswered : PipelineRun :=
  { interactionId := "int-1",
    retrieval := RetrievalResult.ok [(chunkEx, (1 : Rat))],
    generation := GenerationResult.ok "2 years",
    decision :=
      { isGrounded := true, confidence := (1 : Rat),
        reasoning := "supported by c1", supportingChunkIds := ["c1"] } }

/-- Concrete run with zero retrieved chunks and confidence below the
threshold, terminating in the unknown envelope. -/
def runUnknown : PipelineRun :=
  { interactionId := "int-2",
    retrieval := RetrievalResult.ok [],
    generation := GenerationResult.failed,
    decision :=
      { isGrounded := true, confidence := 0, reasoning := "",
        supportingChunkIds := [] } }

/-- Concrete run in which the Retriever fails. -/
def runFailedRetrieval : PipelineRun :=
  { interactionId := "int-3",
    retrieval := RetrievalResult.failed,
    generation := GenerationResult.failed,
    decision :=
      { isGrounded := false, confidence := 0, reasoning := "",
        supportingChunkIds := [] } }

/-- Witness for C1 at a concrete grounded run. -/
theorem answered_implies_citations_nonempty_witness :
    (runQuery cfgEx runAnswered).citations ≠ [] ∧
      (runQuery cfgEx runAnswered).answer ≠ none :=
  answered_implies_citations_nonempty cfgEx runAnswered reqEx
    (runQuery cfgEx runAnswered) (by decide) (by decide)

/-- Witness for C2 at a concrete run with zero retrieved chunks. -/
theorem unknown_implies_fixed_message_witness :
    (runQuery cfgEx runUnknown).answer = some unknownMessage ∧
      (runQuery cfgEx runUnknown).citations = [] :=
  unknown_implies_fixed_message cfgEx runUnknown reqEx
    (runQuery cfgEx runUnknown) (by decide) (by decide)

/-- Witness for C3 at a concrete run with confidence 0 against
threshold 0.7, with is_grounded reported true. -/
theorem low_confidence_never_answered_witness :
    (runQuery cfgEx runUnknown).status ≠ "answered" :=
  low_confidence_never_answered cfgEx runUnknown (by decide)

/-- Witness for C7 at a concrete run whose retrieval fails. -/
theorem retrieval_failure_error_with_interaction_id_witness :
    (runQuery cfgEx runFailedRetrieval).status = "error" ∧
      (runQuery cfgEx runFailedRetrieval).interactionId =
        runFailedRetrieval.interactionId ∧
      (runQuery cfgEx runFailedRetrieval).error ≠ none :=
  retrieval_failure_error_with_interaction_id cfgEx runFailedRetrieval rfl

/-- C5: a query request whose knowledge_base_id is empty or whose
question is empty is rejected by validation before pipeline entry: the
Core query call is never made (so no interaction is created). -/
theorem invalid_request_rejected_before_core {ρ : Type}
    (core : QueryRequestDto → ρ) (req : QueryRequestDto)
    (hbad : req.knowledgeBaseId = "" ∨ req.question = "") :
    processQuery core req =
      { outcome := GatewayOutcome.validationError, forwarded := none } := by
  have hv : QueryValidator.isValid req = false := by
    rcases hbad with h | h <;> simp [QueryValidator.isValid, h]
  unfold processQuery
  rw [hv]
  rfl

/-- Concrete Core stub used by the gateway witnesses. -/
def coreStub : QueryRequestDto → QueryResult := fun _ => unknownResult "int-0"

/-- Concrete request with an empty knowledge base id. -/
def reqEmptyKb : QueryRequestDto :=
  { knowledgeBaseId := "", question := "What is the warranty period?" }

/-- Witness for C5 at a concrete request with empty knowledge_base_id. -/
theorem invalid_request_rejected_before_core_witness :
    processQuery coreStub reqEmptyKb =
      { outcome := GatewayOutcome.validationError, forwarded := none } :=
  invalid_request_rejected_before_core coreStub reqEmptyKb (Or.inl rfl)

/-- C6: every exception escaping request handling is mapped by the
middleware to a JSON body with status "error" and one of two fixed
messages; the result does not depend on the internal exception
message, so no detail crosses the response boundary. -/
theorem middleware_masks_exception_details {ρ : Type}
    (o : RequestOutcome ρ) (hexc : o.isException = true) :
    ∃ code body,
      ErrorHandlingMiddleware.invoke o =
          MiddlewareResponse.errorJson code body ∧
        body.status = "error" ∧
        (body.error = "Core service unavailable" ∨
          body.error = "Internal server error") ∧
        ∀ m, ErrorHandlingMiddleware.invoke (o.replaceMessage m) =
          ErrorHandlingMiddleware.invoke o := by
  cases o with
  | completed r => exact absurd hexc (by simp [RequestOutcome.isException])
  | httpRequestError m0 =>
      exact ⟨503, ⟨"error", "Core service unavailable"⟩, rfl, rfl,
        Or.inl rfl, fun m => rfl⟩
  | unhandledError m0 =>
      exact ⟨500, ⟨"error", "Internal server error"⟩, rfl, rfl,
        Or.inr rfl, fun m => rfl⟩

/-- Witness for C6 at a concrete Core communication exception. -/
theorem middleware_masks_exception_details_witness :
    ∃ code body,
      ErrorHandlingMiddleware.invoke
          (RequestOutcome.httpRequestError "connection refused" :
            RequestOutcome QueryResult) =
          MiddlewareResponse.errorJson code body ∧
        body.status = "error" ∧
        (body.error = "Core service unavailable" ∨
          body.error = "Internal server error") ∧
        ∀ m, ErrorHandlingMiddleware.invoke
            ((RequestOutcome.httpRequestError "connection refused" :
              RequestOutcome QueryResult).replaceMessage m) =
          ErrorHandlingMiddleware.invoke
            (RequestOutcome.httpRequestError "connection refused" :
              RequestOutcome QueryResult) :=
  middleware_masks_exception_details
    (RequestOutcome.httpRequestError "connection refused" :
      RequestOutcome QueryResult) rfl

/-- C8: for every valid query request the gateway forwards the request
to the Core unchanged and returns the Core response envelope
unchanged, matching the spec-worded behaviour specGatewayForward. -/
theorem gateway_forwards_and_returns_unchanged {ρ : Type}
    (core : QueryRequestDto → ρ) (req : QueryRequestDto)
    (hv : QueryValidator.isValid req = true) :
    processQuery core req = specGatewayForward core req ∧
      (processQuery core req).forwarded =
        some { knowledgeBaseId := req.knowledgeBaseId,
               question := req.question } ∧
      (processQuery core req).outcome = GatewayOutcome.ok (core req) := by
  unfold processQuery specGatewayForward
  rw [hv]
  exact ⟨rfl, rfl, rfl⟩

/-- Witness for C8 at a concrete valid request and Core stub. -/
theorem gateway_forwards_and_returns_unchanged_witness :
    processQuery coreStub reqEx = specGatewayForward coreStub reqEx ∧
      (processQuery coreStub reqEx).forwarded =
        some { knowledgeBaseId := reqEx.knowledgeBaseId,
               question := reqEx.question } ∧
      (processQuery coreStub reqEx).outcome =
        GatewayOutcome.ok (coreStub reqEx) :=
  gateway_forwards_and_returns_unchanged coreStub reqEx (by decide)

/-- Helper: the validator accepts exactly when knowledge_base_id is
non-empty, question is non-empty, and question length is at most 2000. -/
theorem QueryValidator.isValid_iff (req : QueryRequestDto) :
    QueryValidator.isValid req = true ↔
      (req.knowledgeBaseId ≠ "" ∧ req.question ≠ "" ∧
        req.question.length ≤ 2000) := by
  simp [QueryValidator.isValid]

/-- C9: the request is forwarded to the Core exactly when
knowledge_base_id is non-empty, question is non-empty and the question
length is at most 2000 characters; in particular a question of 2001 or
more characters is rejected by validation. -/
theorem validation_accepts_iff_fields_within_limits {ρ : Type}
    (core : QueryRequestDto → ρ) (req : QueryRequestDto) :
    (processQuery core req).forwarded.isSome = true ↔
      (req.knowledgeBaseId ≠ "" ∧ req.question ≠ "" ∧
        req.question.length ≤ 2000) := by
  rw [← QueryValidator.isValid_iff]
  by_cases hv : QueryValidator.isValid req = true
  · unfold processQuery
    rw [hv]
    simp [hv]
  · have hv' : QueryValidator.isValid req = false := by
      simpa using hv
    unfold processQuery
    rw [hv']
    simp [hv']

/-- C10: GET /api/v1/health always reports overall status healthy;
CoreStatus is healthy exactly when the probe completes in time and
returns true, and unreachable in every other case; the handler returns
a response for every probe outcome, so no probe exception propagates. -/
theorem health_always_healthy_core_status_cases (p : ProbeOutcome) :
    (HealthEndpoint.handleAsync p).status = "healthy" ∧
      ((HealthEndpoint.handleAsync p).coreStatus = "healthy" ↔
        p = ProbeOutcome.completed true) ∧
      ((HealthEndpoint.handleAsync p).coreStatus = "healthy" ∨
        (HealthEndpoint.handleAsync p).coreStatus = "unreachable") := by
  cases p with
  | completed b => cases b <;> simp [HealthEndpoint.handleAsync]
  | timedOut => simp [HealthEndpoint.handleAsync]
  | threw m => simp [HealthEndpoint.handleAsync]

/-- Helper: the ids of the deduplicated list are pairwise distinct and
avoid the accumulator of already seen ids. -/
theorem dedupById_nodup (seen : List String) (l : List (Chunk × Rat)) :
    ((dedupById seen l).map (fun c => c.1.id)).Nodup ∧
      ∀ x ∈ (dedupById seen l).map (fun c => c.1.id), x ∉ seen := by
  induction l generalizing seen with
  | nil => simp [dedupById]
  | cons c rest ih =>
    by_cases h : c.1.id ∈ seen
    · simp only [dedupById, if_pos h]
      exact ih seen
    · simp only [dedupById, if_neg h, List.map_cons, List.nodup_cons]
      obtain ⟨hn, hs⟩ := ih (c.1.id :: seen)
      refine ⟨⟨fun hmem => (hs _ hmem) (List.mem_cons_self _ _), hn⟩, ?_⟩
      intro x hx
      rcases List.mem_cons.mp hx with hx | hx
      · subst hx
        exact h
      · intro hxseen
        exact hs x hx (List.mem_cons_of_mem _ hxseen)

/-- C4: CitationBuilder returns citations ordered descending by
relevance_score with at most one citation per chunk_id, and running it
twice on the same inputs yields identical output. -/
theorem citationBuilder_ordered_dedup_deterministic
    (supportingIds : List String) (chunks : List (Chunk × Rat)) :
    List.Sorted
        (fun a b : CitationDto => b.relevanceScore ≤ a.relevanceScore)
        (CitationBuilder.build supportingIds chunks) ∧
      ((CitationBuilder.build supportingIds chunks).map
        (fun c => c.chunkId)).Nodup ∧
      CitationBuilder.build supportingIds chunks =
        CitationBuilder.build supportingIds chunks := by
  refine ⟨?_, ?_, rfl⟩
  · unfold CitationBuilder.build
    exact List.Pairwise.map chunkCitation (fun a b hab => hab)
      (List.sorted_insertionSort scoreGE _)
  · unfold CitationBuilder.build
    rw [List.map_map]
    have hperm :
        (List.map ((fun c : CitationDto => c.chunkId) ∘ chunkCitation)
          (List.insertionSort scoreGE
            (dedupById []
              (chunks.filter (fun c => supportingIds.contains c.1.id))))).Perm
          (List.map ((fun c : CitationDto => c.chunkId) ∘ chunkCitation)
            (dedupById []
              (chunks.filter (fun c => supportingIds.contains c.1.id)))) :=
      (List.perm_insertionSort scoreGE _).map _
    refine hperm.symm.nodup ?_
    exact (dedupById_nodup [] _).1
